import Mathlib

/-!
Verification development for the PuntosClub mobile client, centred on the
Session & Membership Synchronizer (`src/contexts/AuthContext.tsx`).

The embedding is shallow: each operation of the synchronizer becomes a pure
Lean function from the operation's inputs and the outcomes of its backend
calls to the resulting local state, the resulting backend table content, and
the list of observable side effects it issues (auth-subsystem sign-out,
push-notification setup, channel teardown, re-fetches).  Backend calls that
can fail are modelled by explicit outcome types.  PostgREST's `.single()`
combinator returns an error object when the query matches no row (or more
than one), and returns structural errors rather than throwing on transport
failures; the thrown path reached by the `Promise.race` timeout is modelled
as a separate outcome.
-/

namespace PuntosClub

/-- The `beneficiary` row as fetched by the synchronizer, including the
joined `user_role.name` (`none` models a null `user_role` or missing name,
matching the optional chaining `(data.user_role as any)?.name`). -/
structure Beneficiary where
  id : String
  first_name : Option String
  last_name : Option String
  email : Option String
  phone : Option String
  document_id : Option String
  available_points : Int
  role_id : Option String
  auth_user_id : Option String
  user_role_name : Option String
deriving Repr, DecidableEq

/-- The `beneficiary_organization` row (a Membership).  `updated_at` is part
of the stored row (selected by `select('*')` and patched by the realtime
UPDATE handler) even though the TypeScript type omits it. -/
structure BeneficiaryOrganization where
  id : String
  beneficiary_id : String
  organization_id : String
  available_points : Int
  total_points_earned : Int
  total_points_redeemed : Int
  joined_date : String
  is_active : Bool
  updated_at : String
deriving Repr, DecidableEq

/-- Local synchronizer state: the React state fields of `AuthProvider`.
`session` and `user` are modelled by the session's user id (the only part
the synchronizer consults). -/
structure AuthState where
  session : Option String
  user : Option String
  beneficiary : Option Beneficiary
  userOrganizations : List BeneficiaryOrganization
  loading : Bool
deriving Repr, DecidableEq

/-- Observable side effects issued towards the backend or the device. -/
inductive Effect
  | authSignOut
  | setupPush
  | profileQuery
deriving Repr, DecidableEq

/-- Outcome of the profile query raced against the 8-second timer in
`fetchBeneficiary`.  `err` is a structural `{ error }` result, which with
`.single()` also covers the no-row case; `timeout` is the thrown rejection
caught by the `catch` block. -/
inductive FetchOutcome
  | ok (row : Beneficiary)
  | err
  | timeout
deriving Repr, DecidableEq

set_option linter.unusedVariables false in
/-- `fetchBeneficiary(authUserId)` of `AuthContext.tsx` (lines 220-258),
applied to the state current at commit time.  The captured `authUserId` is
used only to build the query; the commit does not consult it.
  - `{ error }` result: `await supabase.auth.signOut(); setBeneficiary(null)`;
  - row with role name other than the literal `final_user`: same;
  - row with matching role: `setBeneficiary(data)` plus fire-and-forget
    push-notification setup;
  - thrown timeout/exception: `setBeneficiary(null)` only;
  - `finally`: `setLoading(false)` on every path. -/
def fetchBeneficiary (authUserId : String) (st : AuthState) (outcome : FetchOutcome) :
    AuthState × List Effect :=
  match outcome with
  | FetchOutcome.err =>
      ({ st with beneficiary := none, loading := false }, [Effect.authSignOut])
  | FetchOutcome.ok row =>
      if row.user_role_name = some "final_user" then
        ({ st with beneficiary := some row, loading := false }, [Effect.setupPush])
      else
        ({ st with beneficiary := none, loading := false }, [Effect.authSignOut])
  | FetchOutcome.timeout =>
      ({ st with beneficiary := none, loading := false }, [])

/-- Outcome of `supabase.auth.getSession()` raced against the 10-second
timer: either it resolves (with a session carrying a user id, or with no
session), or the race rejects. -/
inductive SessionOutcome
  | ok (sessionUser : Option String)
  | timeout
deriving Repr, DecidableEq

/-- The startup routine of `AuthContext.tsx` (lines 93-128): race
`getSession()` against the timer; on resolution store session and user and,
when a user is present, run `fetchBeneficiary`; otherwise stop loading; on
rejection clear session, user and beneficiary and stop loading. -/
def initAuth (st : AuthState) (so : SessionOutcome) (fo : FetchOutcome) :
    AuthState × List Effect :=
  match so with
  | SessionOutcome.timeout =>
      ({ st with session := none, user := none, beneficiary := none, loading := false }, [])
  | SessionOutcome.ok none =>
      ({ st with session := none, user := none, loading := false }, [])
  | SessionOutcome.ok (some uid) =>
      fetchBeneficiary uid { st with session := some uid, user := some uid } fo

/-- The `onAuthStateChange` listener body (lines 132-144): store the new
session and user; with a user present run `fetchBeneficiary`, otherwise
clear beneficiary and memberships and stop loading. -/
def onAuthStateChange (st : AuthState) (sessionUser : Option String) (fo : FetchOutcome) :
    AuthState × List Effect :=
  match sessionUser with
  | some uid =>
      fetchBeneficiary uid { st with session := some uid, user := some uid } fo
  | none =>
      ({ st with session := none, user := none, beneficiary := none,
                 userOrganizations := [], loading := false }, [])

/-- Outcome of `supabase.auth.signInWithPassword`: an error, or success with
`data.user` possibly null. -/
inductive GrantOutcome
  | err (msg : String)
  | ok (userId : Option String)
deriving Repr, DecidableEq

/-- Outcome of the beneficiary-verification query inside `signIn`
(`.single()`, so a missing row surfaces as `err`; the raw backend message is
carried to show it is not what `signIn` returns). -/
inductive VerifyOutcome
  | err (msg : String)
  | ok (row : Beneficiary)
deriving Repr, DecidableEq

/-- What `signIn` returns together with the effects it issued. -/
structure SignInResult where
  error : Option String
  effects : List Effect
deriving Repr, DecidableEq

/-- Domain error returned by `signIn` when the verification query fails or
finds no row (source text uses an accented `registrada` sentence; ASCII
transliteration here). -/
def notRegisteredMsg : String :=
  "Esta cuenta no esta registrada como usuario final. Por favor usa la app correcta."

/-- Domain error returned by `signIn` when the row's role is not
`final_user`. -/
def noPermissionMsg : String :=
  "Esta cuenta no tiene permisos de usuario final."

/-- `signIn(email, password)` of `AuthContext.tsx` (lines 260-295): pass a
password-grant error through; when the grant succeeds and `data.user` is
present, run the beneficiary query (effect `profileQuery`) and verify the
role, forcing `supabase.auth.signOut()` and returning a fixed domain message
on failure; when the grant succeeds with no user object, return
`{ error: null }` without any verification. -/
def signIn (grant : GrantOutcome) (verify : VerifyOutcome) : SignInResult :=
  match grant with
  | GrantOutcome.err msg => { error := some msg, effects := [] }
  | GrantOutcome.ok none => { error := none, effects := [] }
  | GrantOutcome.ok (some _) =>
      match verify with
      | VerifyOutcome.err _ =>
          { error := some notRegisteredMsg
            effects := [Effect.profileQuery, Effect.authSignOut] }
      | VerifyOutcome.ok row =>
          if row.user_role_name = some "final_user" then
            { error := none, effects := [Effect.profileQuery] }
          else
            { error := some noPermissionMsg
              effects := [Effect.profileQuery, Effect.authSignOut] }

/-- The individual steps of `signOut()` (lines 392-401), in the order the
source executes them. -/
inductive TeardownStep
  | removeChannel
  | authSignOut
  | clearBeneficiary
  | clearUserOrganizations
deriving Repr, DecidableEq

/-- `signOut()`: when a realtime channel is live, remove it first; then
`await supabase.auth.signOut()`; then clear beneficiary and memberships.
Returns the updated local state and the ordered step trace. -/
def signOut (st : AuthState) (channelLive : Bool) : AuthState × List TeardownStep :=
  ({ st with beneficiary := none, userOrganizations := [] },
   (if channelLive then [TeardownStep.removeChannel] else []) ++
   [TeardownStep.authSignOut, TeardownStep.clearBeneficiary,
    TeardownStep.clearUserOrganizations])

/-- The `payload.new` row of a realtime UPDATE event, restricted to the
fields the handler reads. -/
structure UpdatePayload where
  id : String
  available_points : Int
  total_points_earned : Int
  total_points_redeemed : Int
  updated_at : String
deriving Repr, DecidableEq

/-- A realtime event as delivered to the channel callback: its kind string
and, for UPDATE, the new row. -/
structure RealtimePayload where
  eventType : String
  newRow : Option UpdatePayload
deriving Repr, DecidableEq

/-- The per-row patch applied by the UPDATE branch (lines 177-191): on the
matching id, spread the old row and overwrite `available_points`,
`total_points_earned`, `total_points_redeemed` and `updated_at` from
`payload.new`; other rows are returned as they are. -/
def patchMembership (p : UpdatePayload) (org : BeneficiaryOrganization) :
    BeneficiaryOrganization :=
  if org.id = p.id then
    { org with
        available_points := p.available_points
        total_points_earned := p.total_points_earned
        total_points_redeemed := p.total_points_redeemed
        updated_at := p.updated_at }
  else org

/-- The realtime callback (lines 173-196): an UPDATE with a `new` row
patches the list in place and fetches nothing; every other event leaves the
list to a full re-fetch (second component `true`). -/
def handleRealtimeEvent (payload : RealtimePayload) (prev : List BeneficiaryOrganization) :
    List BeneficiaryOrganization × Bool :=
  if payload.eventType = "UPDATE" then
    match payload.newRow with
    | some p => (prev.map (patchMembership p), false)
    | none => (prev, true)
  else (prev, true)

/-- Rows of a membership table belonging to one (profile, organization)
pair. -/
def pairRows (rows : List BeneficiaryOrganization) (bid oid : String) :
    List BeneficiaryOrganization :=
  rows.filter fun m => decide (m.beneficiary_id = bid ∧ m.organization_id = oid)

/-- Active rows of a membership table belonging to one pair. -/
def activePairRows (rows : List BeneficiaryOrganization) (bid oid : String) :
    List BeneficiaryOrganization :=
  (pairRows rows bid oid).filter fun m => m.is_active

/-- The existence lookup of `joinOrganization` (`.single()` on
beneficiary_id and organization_id): `data` is the row when the pair has
exactly one, and null otherwise (zero or several rows make `.single()`
report an error, which the source discards). -/
def lookupMembership (rows : List BeneficiaryOrganization) (bid oid : String) :
    Option BeneficiaryOrganization :=
  match pairRows rows bid oid with
  | [m] => some m
  | _ => none

/-- Backend-generated fields of a freshly inserted membership row. -/
structure NewRowInfo where
  id : String
  joined_date : String
  updated_at : String
deriving Repr, DecidableEq

/-- The row inserted by `joinOrganization` for a first-time join: both point
counters and the available balance at zero, active true. -/
def newMembership (bid oid : String) (fresh : NewRowInfo) : BeneficiaryOrganization :=
  { id := fresh.id
    beneficiary_id := bid
    organization_id := oid
    available_points := 0
    total_points_earned := 0
    total_points_redeemed := 0
    joined_date := fresh.joined_date
    is_active := true
    updated_at := fresh.updated_at }

/-- The reactivation write: `update({ is_active: true })` on the row with
the given id — no other column is touched. -/
def reactivateRow (rows : List BeneficiaryOrganization) (rowId : String) :
    List BeneficiaryOrganization :=
  rows.map fun r => if r.id = rowId then { r with is_active := true } else r

/-- Result of `joinOrganization`: the returned error (if any), the
membership table afterwards, and whether the trailing
`fetchUserOrganizations` re-fetch ran. -/
structure JoinOutcome where
  error : Option String
  rows : List BeneficiaryOrganization
  refetched : Bool
deriving Repr, DecidableEq

/-- `joinOrganization(organizationId)` of `AuthContext.tsx` (lines 333-384).
`lookupFails` models a transport failure of the existence lookup: the source
destructures only `data`, so a failed lookup is indistinguishable from an
absent row.  `updateFails` / `insertFails` model backend write errors.
Paths: no beneficiary → error; found active → error, nothing written;
found inactive → reactivate; not found → insert a zero-counter row; a
successful write is followed by the re-fetch. -/
def joinOrganization (beneficiary : Option Beneficiary)
    (rows : List BeneficiaryOrganization)
    (lookupFails updateFails insertFails : Bool)
    (organizationId : String) (fresh : NewRowInfo) : JoinOutcome :=
  match beneficiary with
  | none => { error := some "No hay usuario autenticado", rows := rows, refetched := false }
  | some b =>
      match (if lookupFails then none else lookupMembership rows b.id organizationId) with
      | some m =>
          if m.is_active then
            { error := some "Ya perteneces a esta organizacion", rows := rows,
              refetched := false }
          else if updateFails then
            { error := some "Error al reactivar membresia", rows := rows,
              refetched := false }
          else
            { error := none, rows := reactivateRow rows m.id, refetched := true }
      | none =>
          if insertFails then
            { error := some "Error al unirse a la organizacion", rows := rows,
              refetched := false }
          else
            { error := none, rows := rows ++ [newMembership b.id organizationId fresh],
              refetched := true }

/-- Initial provider state: everything empty, loading true. -/
def st0 : AuthState :=
  { session := none, user := none, beneficiary := none,
    userOrganizations := [], loading := true }

/-- A state holding a live session for user `u1`. -/
def stC1 : AuthState :=
  { session := some "u1", user := some "u1", beneficiary := none,
    userOrganizations := [], loading := true }

/-- A matching-role beneficiary row belonging to auth user `u1`. -/
def staleRow : Beneficiary :=
  { id := "b1", first_name := none, last_name := none, email := none,
    phone := none, document_id := none, available_points := 0,
    role_id := some "r1", auth_user_id := some "u1",
    user_role_name := some "final_user" }

/-- A state whose current session belongs to a different user `u2`. -/
def freshState : AuthState :=
  { session := some "u2", user := some "u2", beneficiary := none,
    userOrganizations := [], loading := true }

/-- A stored membership row used by the realtime-handler theorems. -/
def mC6 : BeneficiaryOrganization :=
  { id := "m1", beneficiary_id := "b1", organization_id := "o1",
    available_points := 10, total_points_earned := 20, total_points_redeemed := 10,
    joined_date := "2024-01-01", is_active := true, updated_at := "t0" }

/-- A row with a different membership id. -/
def mOtherC6 : BeneficiaryOrganization :=
  { id := "m2", beneficiary_id := "b1", organization_id := "o2",
    available_points := 3, total_points_earned := 3, total_points_redeemed := 0,
    joined_date := "2024-02-02", is_active := true, updated_at := "s0" }

/-- An UPDATE payload for row `m1` carrying a new `updated_at`. -/
def pC6 : UpdatePayload :=
  { id := "m1", available_points := 15, total_points_earned := 25,
    total_points_redeemed := 10, updated_at := "t1" }

/-- A beneficiary row whose joined role is not `final_user`. -/
def mRoleAdmin : Beneficiary :=
  { id := "b9", first_name := none, last_name := none, email := none,
    phone := none, document_id := none, available_points := 0,
    role_id := some "r9", auth_user_id := some "u1",
    user_role_name := some "admin" }

/-- A beneficiary used for the join theorems. -/
def bW : Beneficiary :=
  { id := "ben1", first_name := some "A", last_name := some "B", email := none,
    phone := none, document_id := none, available_points := 0,
    role_id := some "r1", auth_user_id := some "u1",
    user_role_name := some "final_user" }

/-- Backend-generated fields for a fresh join row. -/
def freshW : NewRowInfo :=
  { id := "row1", joined_date := "2024-03-03", updated_at := "t1" }

/-- An existing active membership row of `bW` in organization `org1`. -/
def mActiveW : BeneficiaryOrganization :=
  { id := "row0", beneficiary_id := "ben1", organization_id := "org1",
    available_points := 5, total_points_earned := 7, total_points_redeemed := 2,
    joined_date := "2024-01-01", is_active := true, updated_at := "t0" }

/-- The same membership row after the beneficiary has left: inactive, with
its historical counters retained. -/
def mInactiveW : BeneficiaryOrganization :=
  { id := "row0", beneficiary_id := "ben1", organization_id := "org1",
    available_points := 5, total_points_earned := 7, total_points_redeemed := 2,
    joined_date := "2024-01-01", is_active := false, updated_at := "t0" }

/-- Reactivation does not change which rows belong to a pair: it only flips
`is_active`, and the pair key fields are untouched, so the pair's row count
is preserved. -/
theorem pairRows_reactivateRow_length (rows : List BeneficiaryOrganization)
    (rid bid oid : String) :
    (pairRows (reactivateRow rows rid) bid oid).length =
      (pairRows rows bid oid).length := by
  induction rows with
  | nil => rfl
  | cons r rs ih =>
      by_cases hid : r.id = rid <;>
      by_cases hp : r.beneficiary_id = bid ∧ r.organization_id = oid <;>
        simp [pairRows, reactivateRow, List.filter_cons, hid, hp] at ih ⊢ <;>
        omega

/-- Claim C1, counterexample.  When the profile fetch fails by hitting the
8-second timeout (the thrown rejection caught by the `catch` block), the
Profile is cleared but no sign-out is issued at the auth subsystem: the
claim's "fetch fails → forces sign-out" does not hold on this path. -/
theorem C1_counterexample :
    (fetchBeneficiary "u1" stC1 FetchOutcome.timeout).1.beneficiary = none ∧
    Effect.authSignOut ∉ (fetchBeneficiary "u1" stC1 FetchOutcome.timeout).2 := by
  decide

/-- Claim C1, amended.  Profile resolution stores a Profile only for a row
whose joined role name is the literal `final_user`; a query error result
(which with `.single()` includes the no-row case) or a row with any other
role forces sign-out at the auth subsystem and clears the Profile; a
timeout/exception clears the Profile but issues no sign-out. -/
theorem C1_fetchBeneficiary_role_gate (uid : String) (st : AuthState) (o : FetchOutcome) :
    (∀ b, (fetchBeneficiary uid st o).1.beneficiary = some b →
      o = FetchOutcome.ok b ∧ b.user_role_name = some "final_user") ∧
    (o = FetchOutcome.err →
      (fetchBeneficiary uid st o).1.beneficiary = none ∧
      Effect.authSignOut ∈ (fetchBeneficiary uid st o).2) ∧
    (∀ row, o = FetchOutcome.ok row → row.user_role_name ≠ some "final_user" →
      (fetchBeneficiary uid st o).1.beneficiary = none ∧
      Effect.authSignOut ∈ (fetchBeneficiary uid st o).2) ∧
    (o = FetchOutcome.timeout →
      (fetchBeneficiary uid st o).1.beneficiary = none ∧
      Effect.authSignOut ∉ (fetchBeneficiary uid st o).2) := by
  cases o with
  | ok row =>
      by_cases h : row.user_role_name = some "final_user" <;>
        simp_all [fetchBeneficiary]
  | err => simp [fetchBeneficiary]
  | timeout => simp [fetchBeneficiary]

/-- Witness for `C1_fetchBeneficiary_role_gate` at the query-error outcome. -/
theorem C1_witness :
    (fetchBeneficiary "u1" stC1 FetchOutcome.err).1.beneficiary = none ∧
    Effect.authSignOut ∈ (fetchBeneficiary "u1" stC1 FetchOutcome.err).2 :=
  (C1_fetchBeneficiary_role_gate "u1" stC1 FetchOutcome.err).2.1 rfl

/-- Claim C7, counterexample.  When session retrieval succeeds with a user
but profile resolution times out, the code clears only the Profile: the
Session and Identity remain set, contradicting the claim that all of
Session, Identity and Profile end up empty on every transport/timeout
error. -/
theorem C7_counterexample :
    (initAuth st0 (SessionOutcome.ok (some "u1")) FetchOutcome.timeout).1.session = some "u1" ∧
    (initAuth st0 (SessionOutcome.ok (some "u1")) FetchOutcome.timeout).1.user = some "u1" ∧
    (initAuth st0 (SessionOutcome.ok (some "u1")) FetchOutcome.timeout).1.beneficiary = none ∧
    (initAuth st0 (SessionOutcome.ok (some "u1")) FetchOutcome.timeout).1.loading = false := by
  decide

/-- Claim C7, amended.  Startup always ends with the loading flag false, on
every combination of outcomes (never stuck loading).  A session-retrieval
timeout clears Session, Identity and Profile.  A transport or timeout error
during profile resolution clears the Profile and stops loading, but leaves
Session and Identity holding the just-stored session. -/
theorem C7_fail_closed (st : AuthState) (so : SessionOutcome) (fo : FetchOutcome) :
    (initAuth st so fo).1.loading = false ∧
    (so = SessionOutcome.timeout →
      (initAuth st so fo).1.session = none ∧
      (initAuth st so fo).1.user = none ∧
      (initAuth st so fo).1.beneficiary = none) ∧
    (∀ uid, so = SessionOutcome.ok (some uid) →
      (fo = FetchOutcome.err ∨ fo = FetchOutcome.timeout) →
      (initAuth st so fo).1.beneficiary = none ∧
      (initAuth st so fo).1.session = some uid ∧
      (initAuth st so fo).1.user = some uid) := by
  cases so with
  | timeout => simp [initAuth]
  | ok su =>
      cases su with
      | none => simp [initAuth]
      | some uid =>
          cases fo with
          | ok row =>
              by_cases h : row.user_role_name = some "final_user" <;>
                simp_all [initAuth, fetchBeneficiary]
          | err => simp [initAuth, fetchBeneficiary]
          | timeout => simp [initAuth, fetchBeneficiary]

/-- Witness for `C7_fail_closed` at a session-retrieval timeout. -/
theorem C7_witness :
    (initAuth st0 SessionOutcome.timeout FetchOutcome.err).1.loading = false ∧
    (initAuth st0 SessionOutcome.timeout FetchOutcome.err).1.session = none ∧
    (initAuth st0 SessionOutcome.timeout FetchOutcome.err).1.user = none ∧
    (initAuth st0 SessionOutcome.timeout FetchOutcome.err).1.beneficiary = none :=
  ⟨(C7_fail_closed st0 SessionOutcome.timeout FetchOutcome.err).1,
   (C7_fail_closed st0 SessionOutcome.timeout FetchOutcome.err).2.1 rfl⟩

/-- Claim C9, counterexample.  A resolution captured for user `u1` that
completes while the current session belongs to `u2` is still committed: the
stale row overwrites the Profile even though the captured identity no
longer matches the current one, so stale results are not discarded. -/
theorem C9_counterexample :
    freshState.session ≠ some "u1" ∧
    (fetchBeneficiary "u1" freshState (FetchOutcome.ok staleRow)).1.beneficiary =
      some staleRow := by
  decide

/-- Claim C9, amended.  `fetchBeneficiary` has no stale-response guard at
commit time: the committed Profile and the issued effects depend only on
the fetch outcome, never on the captured identity or on the state current
at completion (the sole staleness check in the listener is the `mounted`
flag, tested before the resolution starts). -/
theorem C9_no_stale_guard (uid uid2 : String) (st st2 : AuthState) (o : FetchOutcome) :
    (fetchBeneficiary uid st o).1.beneficiary = (fetchBeneficiary uid2 st2 o).1.beneficiary ∧
    (fetchBeneficiary uid st o).1.loading = (fetchBeneficiary uid2 st2 o).1.loading ∧
    (fetchBeneficiary uid st o).2 = (fetchBeneficiary uid2 st2 o).2 := by
  cases o with
  | ok row =>
      by_cases h : row.user_role_name = some "final_user" <;>
        simp [fetchBeneficiary, h]
  | err => simp [fetchBeneficiary]
  | timeout => simp [fetchBeneficiary]

/-- Claim C5.  On every execution of `signOut()` with a live realtime
channel, the channel removal is the first step of the trace and strictly
precedes the auth-subsystem sign-out, the Profile clear and the Membership
clear. -/
theorem C5_teardown_order (st : AuthState) (channelLive : Bool) (h : channelLive = true) :
    (signOut st channelLive).2.indexOf TeardownStep.removeChannel = 0 ∧
    (signOut st channelLive).2.indexOf TeardownStep.removeChannel <
      (signOut st channelLive).2.indexOf TeardownStep.authSignOut ∧
    (signOut st channelLive).2.indexOf TeardownStep.removeChannel <
      (signOut st channelLive).2.indexOf TeardownStep.clearBeneficiary ∧
    (signOut st channelLive).2.indexOf TeardownStep.removeChannel <
      (signOut st channelLive).2.indexOf TeardownStep.clearUserOrganizations ∧
    (signOut st channelLive).2.indexOf TeardownStep.authSignOut <
      (signOut st channelLive).2.indexOf TeardownStep.clearBeneficiary := by
  subst h
  have htr : (signOut st true).2 =
      [TeardownStep.removeChannel, TeardownStep.authSignOut,
       TeardownStep.clearBeneficiary, TeardownStep.clearUserOrganizations] := rfl
  rw [htr]
  decide

/-- Witness for `C5_teardown_order` with a live channel. -/
theorem C5_witness :
    (signOut st0 true).2.indexOf TeardownStep.removeChannel = 0 ∧
    (signOut st0 true).2.indexOf TeardownStep.removeChannel <
      (signOut st0 true).2.indexOf TeardownStep.authSignOut ∧
    (signOut st0 true).2.indexOf TeardownStep.removeChannel <
      (signOut st0 true).2.indexOf TeardownStep.clearBeneficiary ∧
    (signOut st0 true).2.indexOf TeardownStep.removeChannel <
      (signOut st0 true).2.indexOf TeardownStep.clearUserOrganizations ∧
    (signOut st0 true).2.indexOf TeardownStep.authSignOut <
      (signOut st0 true).2.indexOf TeardownStep.clearBeneficiary :=
  C5_teardown_order st0 true rfl

/-- Claim C6, counterexample.  The UPDATE handler patches `updated_at` — a
non-counter field — as well as the counters: after the event, M's
`updated_at` is the payload's `t1`, not the stored `t0`, so "all non-counter
fields of M unchanged" fails. -/
theorem C6_counterexample :
    ((handleRealtimeEvent { eventType := "UPDATE", newRow := some pC6 } [mC6]).1.map
      fun r => r.updated_at) = ["t1"] ∧
    mC6.updated_at = "t0" ∧
    (handleRealtimeEvent { eventType := "UPDATE", newRow := some pC6 } [mC6]).2 = false := by
  decide

/-- Claim C6, amended.  An UPDATE event with a `new` row performs no
re-fetch and maps the patch over the list: rows with a different id are
returned unchanged, and on the matching row only the three counters and
`updated_at` are overwritten — id, beneficiary id, organization id, joined
date and the active flag are preserved. -/
theorem C6_update_patch (p : UpdatePayload) (prev : List BeneficiaryOrganization) :
    handleRealtimeEvent { eventType := "UPDATE", newRow := some p } prev =
      (prev.map (patchMembership p), false) ∧
    (∀ org : BeneficiaryOrganization, org.id ≠ p.id → patchMembership p org = org) ∧
    (∀ org : BeneficiaryOrganization,
      (patchMembership p org).id = org.id ∧
      (patchMembership p org).beneficiary_id = org.beneficiary_id ∧
      (patchMembership p org).organization_id = org.organization_id ∧
      (patchMembership p org).joined_date = org.joined_date ∧
      (patchMembership p org).is_active = org.is_active) := by
  refine ⟨by simp [handleRealtimeEvent], ?_, ?_⟩
  · intro org h
    simp [patchMembership, h]
  · intro org
    by_cases h : org.id = p.id <;> simp [patchMembership, h]

/-- Witness for `C6_update_patch`: the patch leaves a row with another id
untouched and preserves the active flag of the matching row. -/
theorem C6_witness :
    patchMembership pC6 mOtherC6 = mOtherC6 ∧
    (patchMembership pC6 mC6).is_active = mC6.is_active := by
  have h := C6_update_patch pC6 [mC6]
  exact ⟨h.2.1 mOtherC6 (by decide), (h.2.2 mC6).2.2.2.2⟩

/-- Claim C8.  When the password grant fails, its error passes through.
When the grant succeeds with a user, the beneficiary verification runs:
a failed or empty query yields the fixed domain message (independent of
the raw backend message) together with a forced sign-out, a row with the
wrong role yields the fixed permission message together with a forced
sign-out, and no error is returned exactly when the verification finds a
`final_user` row.  When the grant succeeds with no user object, the auth
call alone determines the outcome. -/
theorem C8_signIn_verification (uid rawMsg : String) (row : Beneficiary)
    (verify : VerifyOutcome) :
    ((signIn (GrantOutcome.err rawMsg) verify).error = some rawMsg) ∧
    ((signIn (GrantOutcome.ok (some uid)) (VerifyOutcome.err rawMsg)).error =
        some notRegisteredMsg ∧
      Effect.authSignOut ∈
        (signIn (GrantOutcome.ok (some uid)) (VerifyOutcome.err rawMsg)).effects) ∧
    (row.user_role_name ≠ some "final_user" →
      (signIn (GrantOutcome.ok (some uid)) (VerifyOutcome.ok row)).error =
        some noPermissionMsg ∧
      Effect.authSignOut ∈
        (signIn (GrantOutcome.ok (some uid)) (VerifyOutcome.ok row)).effects) ∧
    ((signIn (GrantOutcome.ok (some uid)) verify).error = none ↔
      ∃ r, verify = VerifyOutcome.ok r ∧ r.user_role_name = some "final_user") ∧
    ((signIn (GrantOutcome.ok none) verify).error = none) := by
  refine ⟨rfl, ⟨rfl, by simp [signIn]⟩, ?_, ?_, rfl⟩
  · intro h
    simp [signIn, h]
  · cases verify with
    | err msg => simp [signIn]
    | ok r =>
        by_cases h : r.user_role_name = some "final_user" <;> simp [signIn, h]

/-- Witness for `C8_signIn_verification` at a wrong-role row. -/
theorem C8_witness :
    (signIn (GrantOutcome.ok (some "u1")) (VerifyOutcome.ok mRoleAdmin)).error =
      some noPermissionMsg ∧
    Effect.authSignOut ∈
      (signIn (GrantOutcome.ok (some "u1")) (VerifyOutcome.ok mRoleAdmin)).effects :=
  (C8_signIn_verification "u1" "raw backend failure" mRoleAdmin
    (VerifyOutcome.ok mRoleAdmin)).2.2.1 (by decide)

/-- Claim C10.  When the password grant succeeds but the auth subsystem
returns no user object, `signIn` returns success with no effects at all:
the beneficiary query never runs, no sign-out is issued, and the
defense-in-depth verification is silently skipped. -/
theorem C10_null_user_skips_verification (verify : VerifyOutcome) :
    signIn (GrantOutcome.ok none) verify = { error := none, effects := [] } ∧
    Effect.profileQuery ∉ (signIn (GrantOutcome.ok none) verify).effects ∧
    Effect.authSignOut ∉ (signIn (GrantOutcome.ok none) verify).effects := by
  refine ⟨rfl, ?_, ?_⟩ <;> simp [signIn]

/-- Claim C2.  A join against an existing active membership returns the
"Ya perteneces a esta organizacion" error, leaves the backend table exactly
as it was and performs no re-fetch of the local list; and starting with no
row for the pair, two consecutive joins yield one success then that error,
leaving exactly one active row for the pair. -/
theorem C2_join_idempotent_reject (b : Beneficiary) (oid : String) (fresh : NewRowInfo)
    (uF iF : Bool) :
    (∀ rows m, lookupMembership rows b.id oid = some m → m.is_active = true →
      joinOrganization (some b) rows false uF iF oid fresh =
        { error := some "Ya perteneces a esta organizacion", rows := rows,
          refetched := false }) ∧
    (∀ rows0, pairRows rows0 b.id oid = [] →
      (joinOrganization (some b) rows0 false false false oid fresh).error = none ∧
      (joinOrganization (some b)
          (joinOrganization (some b) rows0 false false false oid fresh).rows
          false false false oid fresh).error =
        some "Ya perteneces a esta organizacion" ∧
      (joinOrganization (some b)
          (joinOrganization (some b) rows0 false false false oid fresh).rows
          false false false oid fresh).rows =
        (joinOrganization (some b) rows0 false false false oid fresh).rows ∧
      (activePairRows (joinOrganization (some b) rows0 false false false oid fresh).rows
          b.id oid).length = 1) := by
  constructor
  · intro rows m hL hA
    simp [joinOrganization, hL, hA]
  · intro rows0 h0
    have hnone : lookupMembership rows0 b.id oid = none := by
      simp [lookupMembership, h0]
    have h1 : joinOrganization (some b) rows0 false false false oid fresh =
        { error := none, rows := rows0 ++ [newMembership b.id oid fresh],
          refetched := true } := by
      simp [joinOrganization, hnone]
    have hpair : pairRows (rows0 ++ [newMembership b.id oid fresh]) b.id oid =
        [newMembership b.id oid fresh] := by
      unfold pairRows at h0 ⊢
      rw [List.filter_append, h0]
      simp [newMembership]
    have hlook2 : lookupMembership (rows0 ++ [newMembership b.id oid fresh]) b.id oid =
        some (newMembership b.id oid fresh) := by
      simp [lookupMembership, hpair]
    have hActive : (newMembership b.id oid fresh).is_active = true := rfl
    refine ⟨by simp [h1], ?_, ?_, ?_⟩
    · rw [h1]
      simp [joinOrganization, hlook2, hActive]
    · rw [h1]
      simp [joinOrganization, hlook2, hActive]
    · rw [h1]
      simp [activePairRows, hpair, hActive]

/-- Witness for `C2_join_idempotent_reject`: a concrete active membership is
rejected unchanged, and a concrete first join succeeds. -/
theorem C2_witness :
    joinOrganization (some bW) [mActiveW] false false false "org1" freshW =
      { error := some "Ya perteneces a esta organizacion", rows := [mActiveW],
        refetched := false } ∧
    (joinOrganization (some bW) ([] : List BeneficiaryOrganization)
        false false false "org1" freshW).error = none := by
  have h := C2_join_idempotent_reject bW "org1" freshW false false
  exact ⟨h.1 [mActiveW] mActiveW (by decide) (by decide),
         (h.2 [] (by decide)).1⟩

/-- Claim C3.  When the lookup finds an inactive row, the join succeeds and
the table is rewritten by the in-place reactivation map: rows with another
id are unchanged, and the update writes only `is_active` — both point
counters, the available balance, the keys, the joined date and the
timestamp of every row are preserved. -/
theorem C3_reactivation_preserves_counters (b : Beneficiary) (oid : String)
    (fresh : NewRowInfo) (rows : List BeneficiaryOrganization)
    (m : BeneficiaryOrganization)
    (hL : lookupMembership rows b.id oid = some m) (hI : m.is_active = false) :
    (joinOrganization (some b) rows false false false oid fresh).error = none ∧
    (joinOrganization (some b) rows false false false oid fresh).rows =
      rows.map (fun r => if r.id = m.id then { r with is_active := true } else r) ∧
    (joinOrganization (some b) rows false false false oid fresh).rows.length =
      rows.length ∧
    (∀ r : BeneficiaryOrganization, r.id ≠ m.id →
      (if r.id = m.id then { r with is_active := true } else r) = r) ∧
    (∀ r : BeneficiaryOrganization,
      ({ r with is_active := true } : BeneficiaryOrganization).total_points_earned =
        r.total_points_earned ∧
      ({ r with is_active := true } : BeneficiaryOrganization).total_points_redeemed =
        r.total_points_redeemed ∧
      ({ r with is_active := true } : BeneficiaryOrganization).available_points =
        r.available_points ∧
      ({ r with is_active := true } : BeneficiaryOrganization).id = r.id ∧
      ({ r with is_active := true } : BeneficiaryOrganization).beneficiary_id =
        r.beneficiary_id ∧
      ({ r with is_active := true } : BeneficiaryOrganization).organization_id =
        r.organization_id ∧
      ({ r with is_active := true } : BeneficiaryOrganization).joined_date =
        r.joined_date ∧
      ({ r with is_active := true } : BeneficiaryOrganization).updated_at =
        r.updated_at) := by
  refine ⟨?_, ?_, ?_, ?_, ?_⟩
  · simp [joinOrganization, hL, hI]
  · simp [joinOrganization, hL, hI, reactivateRow]
  · simp [joinOrganization, hL, hI, reactivateRow]
  · intro r h
    simp [h]
  · intro r
    exact ⟨rfl, rfl, rfl, rfl, rfl, rfl, rfl, rfl⟩

/-- Witness for `C3_reactivation_preserves_counters`: rejoining `org1` after
leaving reactivates the stored row with counters 7 earned and 2 redeemed
intact. -/
theorem C3_witness :
    (joinOrganization (some bW) [mInactiveW] false false false "org1" freshW).error =
      none ∧
    (joinOrganization (some bW) [mInactiveW] false false false "org1" freshW).rows =
      [{ mInactiveW with is_active := true }] := by
  have h := C3_reactivation_preserves_counters bW "org1" freshW [mInactiveW]
    mInactiveW (by decide) (by decide)
  refine ⟨h.1, ?_⟩
  rw [h.2.1]
  decide

/-- Claim C4, counterexample.  When the existence lookup fails (its error is
discarded, so the row reads as absent) while the pair already has an active
row, `joinOrganization` takes the insert path and the table ends with two
rows for the pair. -/
theorem C4_counterexample :
    (joinOrganization (some bW) [mActiveW] true false false "org1" freshW).error =
      none ∧
    (pairRows (joinOrganization (some bW) [mActiveW] true false false "org1" freshW).rows
      "ben1" "org1").length = 2 := by
  decide

/-- Claim C4, amended.  Whenever the existence lookup succeeds — the
transport does not fail and `.single()` reports the pair's unique row —
`joinOrganization` never inserts: on every such outcome (active row,
reactivation, or a failed reactivation write) the table keeps its length
and the pair keeps its row count. -/
theorem C4_no_duplicate_when_lookup_succeeds (b : Beneficiary) (oid : String)
    (fresh : NewRowInfo) (uF iF : Bool) (rows : List BeneficiaryOrganization)
    (m : BeneficiaryOrganization)
    (hL : lookupMembership rows b.id oid = some m) :
    (joinOrganization (some b) rows false uF iF oid fresh).rows.length = rows.length ∧
    (pairRows (joinOrganization (some b) rows false uF iF oid fresh).rows b.id oid).length =
      (pairRows rows b.id oid).length := by
  by_cases hA : m.is_active = true
  · simp [joinOrganization, hL, hA]
  · cases uF with
    | true => simp [joinOrganization, hL, hA]
    | false =>
        have hj : joinOrganization (some b) rows false false iF oid fresh =
            { error := none, rows := reactivateRow rows m.id, refetched := true } := by
          simp [joinOrganization, hL, hA]
        rw [hj]
        exact ⟨by simp [reactivateRow], pairRows_reactivateRow_length rows m.id b.id oid⟩

/-- Witness for `C4_no_duplicate_when_lookup_succeeds` on the reactivation
path. -/
theorem C4_witness :
    (joinOrganization (some bW) [mInactiveW] false false false "org1" freshW).rows.length =
      1 ∧
    (pairRows (joinOrganization (some bW) [mInactiveW] false false false "org1"
        freshW).rows "ben1" "org1").length =
      (pairRows [mInactiveW] "ben1" "org1").length := by
  have h := C4_no_duplicate_when_lookup_succeeds bW "org1" freshW false false
    [mInactiveW] mInactiveW (by decide)
  exact ⟨h.1, h.2⟩

end PuntosClub
